import Mathlib

/-!
Verification development for the Project Lumiere recommendation frontend.

The definitions below are shallow embeddings of the JavaScript source:
pure functions become Lean functions, React state updates become explicit
state-passing functions, fallible network calls become `Except`-valued
inputs, and JS numbers are modelled as `Int`/`Rat`.
-/

namespace Lumiere

/-! ## Calibration settings and derived provider-query filters
Source: UserPreferencesContext (getApiFilters). -/

/-- The four calibration sliders, each an integer slider value.
Source: the calibrationSettings state of UserPreferencesContext. -/
structure CalibrationSettings where
  era : Int
  runtime : Int
  popularity : Int
  familiarity : Int
deriving DecidableEq

/-- The provider-query filter object assembled by getApiFilters.  A field that
the JS code never assigns on its object literal is modelled as `none`.
Ratings (6.0, 7.5) are exact rationals. -/
structure ApiFilters where
  min_year : Option Int := none
  max_year : Option Int := none
  min_runtime : Option Int := none
  max_runtime : Option Int := none
  min_rating : Option ℚ := none
  max_rating : Option ℚ := none
deriving DecidableEq

/-- Embedding of getApiFilters: starts from an empty filter object and
assigns year, runtime and rating ranges by the three if/else chains of the
source, in order. -/
def getApiFilters (cs : CalibrationSettings) : ApiFilters :=
  let f : ApiFilters := {}
  let f :=
    if cs.era ≤ 3 then { f with max_year := some 1980 }
    else if cs.era ≤ 7 then { f with min_year := some 1980, max_year := some 2010 }
    else { f with min_year := some 2010 }
  let f :=
    if cs.runtime ≤ 3 then { f with max_runtime := some 90 }
    else if cs.runtime ≤ 7 then { f with min_runtime := some 90, max_runtime := some 150 }
    else { f with min_runtime := some 150 }
  let f :=
    if cs.popularity ≤ 3 then { f with max_rating := some 6 }
    else if cs.popularity ≤ 7 then { f with min_rating := some 6, max_rating := some (7.5 : ℚ) }
    else { f with min_rating := some (7.5 : ℚ) }
  f

/-- Modelled from the spec: the backend stage that applies the derived
year range to a candidate is not under src (only the frontend that builds
the filters is).  Per the spec, a candidate release year passes the derived
filters iff it is at least min_year (when set) and at most max_year (when
set). -/
def yearWithinFilters (f : ApiFilters) (year : Int) : Bool :=
  (match f.min_year with
   | some lo => decide (lo ≤ year)
   | none => true) &&
  (match f.max_year with
   | some hi => decide (year ≤ hi)
   | none => true)

/-! ## Tag selection state
Source: UserPreferencesContext (addTag, removeTag) and the tag click handler
of the tag-selection page. -/

/-- Embedding of addTag: appends the tag only when it is not already selected
and fewer than 25 tags are selected; otherwise the state is unchanged. -/
def addTag (selectedTags : List String) (tag : String) : List String :=
  if !selectedTags.contains tag && selectedTags.length < 25 then
    selectedTags ++ [tag]
  else
    selectedTags

/-- Embedding of removeTag: keeps exactly the selected tags different from
the given one. -/
def removeTag (selectedTags : List String) (tag : String) : List String :=
  selectedTags.filter (fun t => t != tag)

/-- A user interaction with the tag selection state. -/
inductive TagOp where
  | add (tag : String)
  | remove (tag : String)
deriving DecidableEq

/-- One interaction step on the selected-tags state. -/
def applyTagOp (s : List String) (op : TagOp) : List String :=
  match op with
  | TagOp.add t => addTag s t
  | TagOp.remove t => removeTag s t

/-- Runs a sequence of addTag / removeTag interactions starting from the
initial empty selection. -/
def applyTagOps (ops : List TagOp) : List String :=
  ops.foldl applyTagOp []

/-! ## Tag to provider keyword-id conversion
Source: UserPreferencesContext (getTagIds).  The static lookup table
(keywordIdMapping, from keywordsData) is external data and is modelled as an
arbitrary partial map; an unmapped tag is the JS value undefined, i.e.
`none`. -/

/-- Embedding of getTagIds: maps every selected tag through the static
keyword-id lookup and filters out the undefined results. -/
def getTagIds (keywordIdMapping : String → Option Nat) (selectedTags : List String) :
    List Nat :=
  ((selectedTags.map (fun tag => keywordIdMapping tag)).filter
      (fun id => id != none)).filterMap (fun id => id)

/-! ## Frontend movie records
Source: RecommendationsPage.  A `Movie` is the record shape built by the two
transform steps of fetchRecommendations and by getFallbackMovies.  Fields
that are pure presentation artifacts never inspected by any claim (director,
cast, the rating display string, synopsis, poster URL, credits) are omitted
from the embedding; a field a given code path does not assign at all (JS
undefined) is `none`. -/

structure Movie where
  id : Int
  title : String
  year : String
  runtime : String
  genres : List String
  streaming : String
  score : Option ℚ := none
  popularity : Option ℚ := none
  similarity_score : Option ℚ := none
  familiarity_score : Option ℚ := none
  source_tags : Option (List String) := none
  reasons : List String := []
  showPoster : Bool := false
deriving DecidableEq

/-- The fixed list of streaming service names of getRandomStreamingService. -/
def streamingServices : List String :=
  ["NETFLIX", "HBO MAX", "HULU", "DISNEY+", "AMAZON PRIME", "APPLE TV+"]

/-- Embedding of getRandomStreamingService: picks a service by one draw of
Math.random, modelled as an arbitrary natural number reduced modulo the list
length (Math.floor of Math.random times length is exactly a value in that
range). -/
def getRandomStreamingService (draw : Nat) : String :=
  (streamingServices.getD (draw % streamingServices.length) "")

/-- One entry of response.recommendations of the tag-based recommendation
API, with the fields the transform step reads. -/
structure TagRec where
  tmdb_id : Int
  title : String
  release_date : Option String := none
  runtime : Option Int := none
  genres : List String := []
  vote_average : Option ℚ := none
  final_score : Option ℚ := none
  similarity_score : Option ℚ := none
  familiarity_score : Option ℚ := none
  source_tags : Option (List String) := none
deriving DecidableEq

/-- One entry of response.recommendations of the discovery API, with the
fields the discovery transform step reads. -/
structure DiscRec where
  id : Int
  title : String
  year : Option Int := none
  directors : List String := []
  cast : List String := []
  runtime : Option Int := none
  genres : List String := []
  vote_average : Option ℚ := none
  score : Option ℚ := none
  similarity_score : Option ℚ := none
  familiarity_score : Option ℚ := none
  source_tags : Option (List String) := none
  reasons : Option (List String) := none
deriving DecidableEq

/-- The transform applied to one tag-based recommendation record
(the body of the map over response.recommendations).  `draw` is the
Math.random sample consumed by getRandomStreamingService for this entry. -/
def transformTagMovie (draw : Nat) (movie : TagRec) : Movie :=
  { id := movie.tmdb_id
    title := movie.title
    year :=
      match movie.release_date with
      | some s => if s.take 4 == "" then "Unknown" else s.take 4
      | none => "Unknown"
    runtime := toString (movie.runtime.getD 0) ++ " mins"
    genres := movie.genres
    streaming := getRandomStreamingService draw
    score := some (movie.final_score.getD 0)
    similarity_score := some (movie.similarity_score.getD 0)
    familiarity_score := some (movie.familiarity_score.getD 0)
    source_tags := some (movie.source_tags.getD [])
    reasons := movie.source_tags.getD [] }

/-- The map over the tag-based response.recommendations; the i-th entry
consumes the i-th Math.random draw of the stream `rand`. -/
def transformTagMovies (rand : Nat → Nat) (i : Nat) : List TagRec → List Movie
  | [] => []
  | movie :: rest => transformTagMovie (rand i) movie :: transformTagMovies rand (i + 1) rest

/-- The transform applied to one discovery recommendation record. -/
def transformDiscMovie (draw : Nat) (movie : DiscRec) : Movie :=
  { id := movie.id
    title := movie.title
    year :=
      match movie.year with
      | some y => toString y
      | none => "Unknown"
    runtime := toString (movie.runtime.getD 0) ++ " mins"
    genres := movie.genres
    streaming := getRandomStreamingService draw
    score := some (movie.score.getD 0)
    similarity_score := some (movie.similarity_score.getD 0)
    familiarity_score := some (movie.familiarity_score.getD 0)
    source_tags := some (movie.source_tags.getD [])
    reasons := movie.reasons.getD [] }

/-- The map over the discovery response.recommendations. -/
def transformDiscMovies (rand : Nat → Nat) (i : Nat) : List DiscRec → List Movie
  | [] => []
  | movie :: rest => transformDiscMovie (rand i) movie :: transformDiscMovies rand (i + 1) rest

/-- Embedding of getFallbackMovies: the hard-coded static list of three
movies shown when no API data is used.  These object literals carry no
source_tags, similarity_score or familiarity_score keys at all. -/
def getFallbackMovies : List Movie :=
  [ { id := 1
      title := "Avatar"
      year := "2009"
      runtime := "162 mins"
      genres := ["Science Fiction", "Fantasy"]
      streaming := "NETFLIX"
      score := some (0.85 : ℚ)
      popularity := some (0.9 : ℚ)
      reasons := ["Epic scale", "Visual effects", "Environmental themes"] }
  , { id := 2
      title := "Inception"
      year := "2010"
      runtime := "148 mins"
      genres := ["Sci-Fi", "Thriller"]
      streaming := "HBO MAX"
      score := some (0.92 : ℚ)
      popularity := some (0.88 : ℚ)
      reasons := ["Mind-bending plot", "Complex narrative", "Visual innovation"] }
  , { id := 3
      title := "Parasite"
      year := "2019"
      runtime := "132 mins"
      genres := ["Thriller", "Comedy", "Drama"]
      streaming := "HULU"
      score := some (0.89 : ℚ)
      popularity := some (0.85 : ℚ)
      reasons := ["Social commentary", "Dark comedy", "Unpredictable plot"] } ]

/-! ## The recommendation fetch effect
Source: the fetchRecommendations async function of RecommendationsPage.
Each awaited API call is modelled as an `Except`-valued input: `Except.error`
is a rejected promise (network or HTTP failure), `Except.ok none` is a
response that is null or lacks a recommendations field (the code then throws
and falls through to the next path), and `Except.ok (some recs)` is a
response carrying a recommendations list. -/

/-- The component state fetchRecommendations leaves behind: the movies list,
whether setRecommendationError ran (the catch branch), whether
clearRecommendationStatus ran (the success epilogue), and which external
APIs were called. -/
structure FetchState where
  movies : List Movie
  errorSet : Bool
  statusCleared : Bool
  calledTagApi : Bool
  calledDiscoveryApi : Bool
deriving DecidableEq

/-- Embedding of fetchRecommendations.  With at least one selected tag it
calls the tag-based API, falls back to the discovery API when that fails,
and on total failure records an error and shows the static fallback list;
with zero selected tags it uses the static fallback list directly, calling
no API at all. -/
def fetchRecommendations (selectedTags : List String) (rand : Nat → Nat)
    (tagResp : Except Unit (Option (List TagRec)))
    (discResp : Except Unit (Option (List DiscRec))) : FetchState :=
  if selectedTags.length > 0 then
    match tagResp with
    | Except.ok (some recs) =>
        { movies := transformTagMovies rand 0 recs
          errorSet := false
          statusCleared := true
          calledTagApi := true
          calledDiscoveryApi := false }
    | _ =>
        match discResp with
        | Except.ok (some recs) =>
            { movies := transformDiscMovies rand 0 recs
              errorSet := false
              statusCleared := true
              calledTagApi := true
              calledDiscoveryApi := true }
        | _ =>
            { movies := getFallbackMovies
              errorSet := true
              statusCleared := false
              calledTagApi := true
              calledDiscoveryApi := true }
  else
    { movies := getFallbackMovies
      errorSet := false
      statusCleared := true
      calledTagApi := false
      calledDiscoveryApi := false }

/-! ## Favorites state
Source: the FavoritesProvider whose handleLikeToggle receives a full movie
object (the version the recommendations page's like button calls with
`handleLikeToggle(movie)`), storing movie objects in likedMovies. -/

/-- Embedding of handleLikeToggle: if some stored movie has the same id, all
entries with that id are filtered out, otherwise the movie object is
appended. -/
def handleLikeToggle (prev : List Movie) (movie : Movie) : List Movie :=
  if prev.any (fun m => m.id == movie.id) then
    prev.filter (fun m => m.id != movie.id)
  else
    prev ++ [movie]

/-- JS SameValueZero comparison between a stored movie object and a numeric
id, as performed element-wise by `likedMovies.includes(movie.id)`: operands
of different JS types (an object versus a number) are never equal. -/
def sameValueZeroObjNum (_m : Movie) (_id : Int) : Bool := false

/-- Embedding of `likedMovies.includes(movie.id)` on the recommendations
page: Array.prototype.includes over the stored movie objects, probing with
the numeric id. -/
def likedIncludesId (likedMovies : List Movie) (id : Int) : Bool :=
  likedMovies.any (fun m => sameValueZeroObjNum m id)

/-! ## The displayed shelf
Source: the filteredMovies pipeline of RecommendationsPage. -/

/-- `needle` is a prefix of `hay` (character lists). -/
def charsHavePre : List Char → List Char → Bool
  | [], _ => true
  | _ :: _, [] => false
  | a :: as, b :: bs => a == b && charsHavePre as bs

/-- JS String.prototype.includes: `hay` contains `needle` as a substring. -/
def charsContain : List Char → List Char → Bool
  | [], needle => needle.isEmpty
  | c :: rest, needle => charsHavePre needle (c :: rest) || charsContain rest needle

/-- JS `hay.includes(needle)` on strings. -/
def jsStringIncludes (hay needle : String) : Bool :=
  charsContain hay.toList needle.toList

/-- Embedding of filteredMovies: drops movies whose id is `includes`-equal
to an entry of likedMovies, keeps those whose lowercased title contains the
lowercased search input, slices to the first 20, and annotates each entry
with its showPoster flag (id equal to the selected id). -/
def filteredMovies (movies likedMovies : List Movie) (inputValue : String)
    (selectedId : Option Int) : List Movie :=
  ((((movies.filter (fun movie => !likedIncludesId likedMovies movie.id)).filter
        (fun movie => jsStringIncludes movie.title.toLower inputValue.toLower)).take 20).map
    (fun movie =>
      { movie with
        showPoster :=
          match selectedId with
          | some sid => movie.id == sid
          | none => false }))

/-! ## Configuration constants
Source: config.js and the request the recommendations page issues. -/

/-- config.DEFAULT_RECOMMENDATION_COUNT. -/
def DEFAULT_RECOMMENDATION_COUNT : Nat := 20

/-- config.MAX_RECOMMENDATION_COUNT. -/
def MAX_RECOMMENDATION_COUNT : Nat := 100

/-- The max_recommendations count the recommendations page passes to
getTagBasedRecommendations (also the default count of the api service). -/
def requestedMaxRecommendations : Nat := 20

/-! ## The backend recommendation core's failure signalling -/

/-- Modelled from the spec: the FastAPI recommendation core itself
(backend enricher/ranker services) is not under src, only its requirements
file, documentation and frontend callers are.  Per the spec's error design,
a per-tag provider error yields zero candidates for that tag; when the
provider fails for every tag — the query could not be executed at all — the
core reports a total-failure signal upward, while a run whose queries
execute but match nothing returns a successful empty list.  The input is
the per-tag provider outcome list; the output is either the total-failure
signal or the merged, deduplicated candidate id list. -/
def runTagPipelineCore (tagQueryResults : List (Except Unit (List Int))) :
    Except Unit (List Int) :=
  if tagQueryResults.length > 0 &&
      tagQueryResults.all
        (fun r =>
          match r with
          | Except.error _ => true
          | Except.ok _ => false) then
    Except.error ()
  else
    Except.ok
      ((tagQueryResults.filterMap
          (fun r =>
            match r with
            | Except.ok l => some l
            | Except.error _ => none)).flatten.eraseDups)

/-! ## Keyword search service
Source: keywordService.searchKeywords. -/

/-- One keyword record as returned by the keyword search backend. -/
structure KeywordEntry where
  keyword : String
  id : Nat
deriving DecidableEq

/-- The outcome of the awaited fetch of the keyword search endpoint:
`netFail` is a rejected fetch or a body that fails to parse as JSON,
otherwise the response carries its ok flag and an optional results field
(`none` when the parsed body has no results field). -/
inductive FetchOutcome where
  | netFail
  | resp (ok : Bool) (results : Option (List KeywordEntry))
deriving DecidableEq

/-- What a searchKeywords call produces: the returned list, and whether the
backend endpoint was contacted at all. -/
structure SearchOutcome where
  results : List KeywordEntry
  contactedBackend : Bool
deriving DecidableEq

/-- Drops leading whitespace characters. -/
def dropLeadingWs : List Char → List Char
  | [] => []
  | c :: rest => if c.isWhitespace then dropLeadingWs rest else c :: rest

/-- JS String.prototype.trim: removes whitespace from both ends. -/
def jsTrim (s : String) : String :=
  String.mk ((dropLeadingWs (dropLeadingWs s.toList).reverse).reverse)

/-- Embedding of keywordService.searchKeywords.  A null query is `none`;
a falsy (empty) or whitespace-only query returns the empty list before any
fetch; a failed fetch, a non-OK response, or a body without a results field
all land on the empty list through the catch or the `|| []` default, so the
function is total and never throws to its caller. -/
def searchKeywords (query : Option String) (fetched : FetchOutcome) : SearchOutcome :=
  match query with
  | none => { results := [], contactedBackend := false }
  | some q =>
    if q == "" || jsTrim q == "" then
      { results := [], contactedBackend := false }
    else
      match fetched with
      | FetchOutcome.netFail => { results := [], contactedBackend := true }
      | FetchOutcome.resp ok results =>
          if !ok then
            { results := [], contactedBackend := true }
          else
            { results := results.getD [], contactedBackend := true }

/-! ## Theorems -/

/-- The three if/else chains of getApiFilters evaluate to this closed-form
filter record. -/
theorem getApiFilters_eval (cs : CalibrationSettings) :
    getApiFilters cs =
      { min_year := if cs.era ≤ 3 then none else if cs.era ≤ 7 then some 1980 else some 2010
        max_year := if cs.era ≤ 3 then some 1980 else if cs.era ≤ 7 then some 2010 else none
        min_runtime := if cs.runtime ≤ 3 then none else if cs.runtime ≤ 7 then some 90 else some 150
        max_runtime := if cs.runtime ≤ 3 then some 90 else if cs.runtime ≤ 7 then some 150 else none
        min_rating := if cs.popularity ≤ 3 then none
          else if cs.popularity ≤ 7 then some 6 else some (7.5 : ℚ)
        max_rating := if cs.popularity ≤ 3 then some 6
          else if cs.popularity ≤ 7 then some (7.5 : ℚ) else none } := by
  simp only [getApiFilters]
  repeat' split
  all_goals rfl

/-- C1: for calibration sliders in 1..10, the derived provider-query filters
follow the three-bucket mappings for era, runtime and popularity, and in
particular a candidate with release year 1975 never passes the derived year
filters when era is 9. -/
theorem calibration_bucket_filters (cs : CalibrationSettings)
    (he : 1 ≤ cs.era ∧ cs.era ≤ 10) (hr : 1 ≤ cs.runtime ∧ cs.runtime ≤ 10)
    (hp : 1 ≤ cs.popularity ∧ cs.popularity ≤ 10) :
    ((cs.era ≤ 3 →
        (getApiFilters cs).max_year = some 1980 ∧ (getApiFilters cs).min_year = none) ∧
     (4 ≤ cs.era ∧ cs.era ≤ 7 →
        (getApiFilters cs).min_year = some 1980 ∧ (getApiFilters cs).max_year = some 2010) ∧
     (8 ≤ cs.era →
        (getApiFilters cs).min_year = some 2010 ∧ (getApiFilters cs).max_year = none)) ∧
    ((cs.runtime ≤ 3 →
        (getApiFilters cs).max_runtime = some 90 ∧ (getApiFilters cs).min_runtime = none) ∧
     (4 ≤ cs.runtime ∧ cs.runtime ≤ 7 →
        (getApiFilters cs).min_runtime = some 90 ∧ (getApiFilters cs).max_runtime = some 150) ∧
     (8 ≤ cs.runtime →
        (getApiFilters cs).min_runtime = some 150 ∧ (getApiFilters cs).max_runtime = none)) ∧
    ((cs.popularity ≤ 3 →
        (getApiFilters cs).max_rating = some 6 ∧ (getApiFilters cs).min_rating = none) ∧
     (4 ≤ cs.popularity ∧ cs.popularity ≤ 7 →
        (getApiFilters cs).min_rating = some 6 ∧
          (getApiFilters cs).max_rating = some (7.5 : ℚ)) ∧
     (8 ≤ cs.popularity →
        (getApiFilters cs).min_rating = some (7.5 : ℚ) ∧ (getApiFilters cs).max_rating = none)) ∧
    (cs.era = 9 → yearWithinFilters (getApiFilters cs) 1975 = false) := by
  rw [getApiFilters_eval]
  refine ⟨⟨fun h => ?_, fun h => ?_, fun h => ?_⟩,
    ⟨fun h => ?_, fun h => ?_, fun h => ?_⟩,
    ⟨fun h => ?_, fun h => ?_, fun h => ?_⟩, fun h => ?_⟩
  · simp [h]
  · simp [show ¬cs.era ≤ 3 by omega, show cs.era ≤ 7 from h.2]
  · simp [show ¬cs.era ≤ 3 by omega, show ¬cs.era ≤ 7 by omega]
  · simp [h]
  · simp [show ¬cs.runtime ≤ 3 by omega, show cs.runtime ≤ 7 from h.2]
  · simp [show ¬cs.runtime ≤ 3 by omega, show ¬cs.runtime ≤ 7 by omega]
  · simp [h]
  · simp [show ¬cs.popularity ≤ 3 by omega, show cs.popularity ≤ 7 from h.2]
  · simp [show ¬cs.popularity ≤ 3 by omega, show ¬cs.popularity ≤ 7 by omega]
  · simp [yearWithinFilters, show ¬cs.era ≤ 3 by omega, show ¬cs.era ≤ 7 by omega]

/-- C1 witness: at era 9 the derived filters reject the release year 1975. -/
theorem calibration_bucket_filters_witness :
    yearWithinFilters
      (getApiFilters { era := 9, runtime := 2, popularity := 5, familiarity := 5 }) 1975
      = false :=
  (calibration_bucket_filters { era := 9, runtime := 2, popularity := 5, familiarity := 5 }
    (by decide) (by decide) (by decide)).2.2.2 rfl

/-- C3: for every static lookup table and every list of selected tags,
getTagIds returns exactly the mapped keyword ids of the tags that have a
mapping, in order; unmapped tags are dropped silently, the conversion is a
total function and the result never exceeds the input length. -/
theorem getTagIds_drops_unmapped_silently (keywordIdMapping : String → Option Nat)
    (selectedTags : List String) :
    getTagIds keywordIdMapping selectedTags = selectedTags.filterMap keywordIdMapping ∧
    (getTagIds keywordIdMapping selectedTags).length ≤ selectedTags.length := by
  have h : getTagIds keywordIdMapping selectedTags = selectedTags.filterMap keywordIdMapping := by
    induction selectedTags with
    | nil => rfl
    | cons t ts ih =>
      unfold getTagIds at ih ⊢
      cases hm : keywordIdMapping t <;>
        simp [hm, List.filterMap_cons, ih]
  refine ⟨h, ?_⟩
  rw [h]
  exact List.length_filterMap_le _ _

/-- C4: the displayed recommendations list is truncated to at most the
requested count: its length never exceeds the default recommendation count
of 20, which equals the count the page requests from the API and is bounded
above by the configured maximum of 100. -/
theorem filteredMovies_length_le_max (movies likedMovies : List Movie)
    (inputValue : String) (selectedId : Option Int) :
    (filteredMovies movies likedMovies inputValue selectedId).length ≤
      DEFAULT_RECOMMENDATION_COUNT ∧
    DEFAULT_RECOMMENDATION_COUNT = requestedMaxRecommendations ∧
    DEFAULT_RECOMMENDATION_COUNT ≤ MAX_RECOMMENDATION_COUNT := by
  refine ⟨?_, rfl, by decide⟩
  unfold filteredMovies DEFAULT_RECOMMENDATION_COUNT
  rw [List.length_map]
  exact List.length_take_le _ _

/-- C10: searchKeywords is total (never throws to its caller); a null,
empty or whitespace-only query returns the empty list without contacting
the backend, and a failed fetch, a non-OK response, or a body without a
results field each return the empty list. -/
theorem searchKeywords_safe (q : String) (r : Option (List KeywordEntry))
    (f : FetchOutcome) (hq : jsTrim q = "") :
    searchKeywords none f = { results := [], contactedBackend := false } ∧
    searchKeywords (some q) f = { results := [], contactedBackend := false } ∧
    ∀ p : String,
      (searchKeywords (some p) FetchOutcome.netFail).results = [] ∧
      (searchKeywords (some p) (FetchOutcome.resp false r)).results = [] ∧
      (searchKeywords (some p) (FetchOutcome.resp true none)).results = [] := by
  refine ⟨rfl, ?_, ?_⟩
  · simp [searchKeywords, hq]
  · intro p
    by_cases hpe : p = "" ∨ jsTrim p = ""
    · refine ⟨?_, ?_, ?_⟩ <;> simp [searchKeywords, hpe]
    · refine ⟨?_, ?_, ?_⟩ <;> simp [searchKeywords, hpe]

/-- C10 witness: a whitespace-only query with a failing fetch returns the
empty list without contacting the backend. -/
theorem searchKeywords_safe_witness :
    jsTrim "  " = "" ∧
    searchKeywords (some "  ") FetchOutcome.netFail =
      { results := [], contactedBackend := false } :=
  ⟨by decide, (searchKeywords_safe "  " none FetchOutcome.netFail (by decide)).2.1⟩

/-- C2 counterexample: with zero selected tags the code does not fall back
to a provider-wide discovery query — no discovery call is made, and the
entries shown (the static fallback list) carry no source_tags field at all
rather than an empty source_tags list. -/
theorem zero_tags_claim_false :
    ¬ ((fetchRecommendations [] (fun _ => 0) (Except.error ()) (Except.error ())).calledDiscoveryApi
          = true ∧
       ∀ m ∈ (fetchRecommendations [] (fun _ => 0) (Except.error ())
                (Except.error ())).movies,
         m.source_tags = some []) := by
  decide

/-- C2 amended: if the user selected zero tags, the tag-aggregation stage is
skipped entirely and no provider query at all (tag-based or discovery) is
issued; the movies state becomes the hard-coded static fallback list of
three movies, none of which carries a source_tags field. -/
theorem zero_tags_static_fallback (rand : Nat → Nat)
    (tagResp : Except Unit (Option (List TagRec)))
    (discResp : Except Unit (Option (List DiscRec))) :
    (fetchRecommendations [] rand tagResp discResp).calledTagApi = false ∧
    (fetchRecommendations [] rand tagResp discResp).calledDiscoveryApi = false ∧
    (fetchRecommendations [] rand tagResp discResp).movies = getFallbackMovies ∧
    ∀ m ∈ (fetchRecommendations [] rand tagResp discResp).movies,
      m.source_tags = none := by
  refine ⟨rfl, rfl, rfl, ?_⟩
  show ∀ m ∈ getFallbackMovies, m.source_tags = none
  decide

/-- C5: when the metadata provider returns an error for every tag, the core
pipeline reports the total-failure signal rather than a successful response,
so the caller can always distinguish it from a run that executed and merely
matched zero candidates. -/
theorem all_tag_failures_signalled (tagQueryResults : List (Except Unit (List Int)))
    (h1 : tagQueryResults ≠ [])
    (h2 : ∀ r ∈ tagQueryResults, r = Except.error ()) :
    runTagPipelineCore tagQueryResults = Except.error () ∧
    ∀ l : List Int, runTagPipelineCore tagQueryResults ≠ Except.ok l := by
  have hall : tagQueryResults.all
      (fun r =>
        match r with
        | Except.error _ => true
        | Except.ok _ => false) = true := by
    rw [List.all_eq_true]
    intro r hr
    rw [h2 r hr]
  have hlen : 0 < tagQueryResults.length := List.length_pos.mpr h1
  have hmain : runTagPipelineCore tagQueryResults = Except.error () := by
    unfold runTagPipelineCore
    simp [hall, hlen]
  exact ⟨hmain, fun l h => by rw [hmain] at h; exact Except.noConfusion h⟩

/-- C5 witness: a single failing tag query yields the total-failure signal. -/
theorem all_tag_failures_signalled_witness :
    runTagPipelineCore [Except.error ()] = Except.error () :=
  (all_tag_failures_signalled [Except.error ()] (by simp) (by simp)).1

/-- Erases the one field of a transformed movie record that is fed by
Math.random, the streaming service label. -/
def stripStreaming (m : Movie) : Movie := { m with streaming := "" }

/-- The fetch outcome with every movie record's streaming label erased. -/
def deterministicView (st : FetchState) : FetchState :=
  { st with movies := st.movies.map stripStreaming }

/-- C6 counterexample: two runs of the fetch pipeline on identical selected
tags, calibration-independent inputs and an identical mocked provider
response differ when their Math.random draws differ — the per-movie records
are not byte-identical across runs. -/
theorem rerun_not_identical :
    fetchRecommendations ["thrilling"] (fun _ => 0)
      (Except.ok (some [{ tmdb_id := 603, title := "The Matrix" }])) (Except.error ())
    ≠ fetchRecommendations ["thrilling"] (fun _ => 1)
      (Except.ok (some [{ tmdb_id := 603, title := "The Matrix" }])) (Except.error ()) := by
  decide

/-- C6 amended: given identical inputs and an identical provider response
set, two runs of the fetch pipeline agree on the recommendation ordering and
on every field of every per-movie record except the streaming label, which
is sampled through Math.random from a fixed list of six services. -/
theorem rerun_deterministic_up_to_streaming (selectedTags : List String)
    (r1 r2 : Nat → Nat) (tagResp : Except Unit (Option (List TagRec)))
    (discResp : Except Unit (Option (List DiscRec))) :
    deterministicView (fetchRecommendations selectedTags r1 tagResp discResp) =
    deterministicView (fetchRecommendations selectedTags r2 tagResp discResp) := by
  have htag : ∀ (i j : Nat) (recs : List TagRec),
      (transformTagMovies r1 i recs).map stripStreaming =
      (transformTagMovies r2 j recs).map stripStreaming := by
    intro i j recs
    induction recs generalizing i j with
    | nil => rfl
    | cons m ms ih =>
      simp only [transformTagMovies, List.map_cons]
      rw [ih (i + 1) (j + 1)]
      rfl
  have hdisc : ∀ (i j : Nat) (recs : List DiscRec),
      (transformDiscMovies r1 i recs).map stripStreaming =
      (transformDiscMovies r2 j recs).map stripStreaming := by
    intro i j recs
    induction recs generalizing i j with
    | nil => rfl
    | cons m ms ih =>
      simp only [transformDiscMovies, List.map_cons]
      rw [ih (i + 1) (j + 1)]
      rfl
  unfold fetchRecommendations
  by_cases h : selectedTags.length > 0
  · simp only [if_pos h]
    cases tagResp with
    | ok v =>
      cases v with
      | some recs => simp [deterministicView, htag 0 0 recs]
      | none =>
        cases discResp with
        | ok w =>
          cases w with
          | some recs => simp [deterministicView, hdisc 0 0 recs]
          | none => rfl
        | error e => rfl
    | error e =>
      cases discResp with
      | ok w =>
        cases w with
        | some recs => simp [deterministicView, hdisc 0 0 recs]
        | none => rfl
      | error e2 => rfl
  · simp only [if_neg h]

/-- One addTag or removeTag step keeps the selection within 25 entries and
free of duplicates. -/
theorem applyTagOp_preserves (s : List String) (op : TagOp)
    (hlen : s.length ≤ 25) (hnd : s.Nodup) :
    (applyTagOp s op).length ≤ 25 ∧ (applyTagOp s op).Nodup := by
  cases op with
  | add t =>
    simp only [applyTagOp, addTag]
    by_cases hc : (!s.contains t && decide (s.length < 25)) = true
    · rw [if_pos hc]
      have hc2 : t ∉ s ∧ s.length < 25 := by simpa using hc
      have hmem : t ∉ s := hc2.1
      have hlt : s.length < 25 := hc2.2
      refine ⟨?_, ?_⟩
      · simp only [List.length_append, List.length_singleton]
        omega
      · simp [List.nodup_append, hnd, hmem]
    · rw [if_neg hc]
      exact ⟨hlen, hnd⟩
  | remove t =>
    refine ⟨?_, ?_⟩
    · exact le_trans (List.length_filter_le _ _) hlen
    · exact hnd.filter _

/-- Any sequence of addTag / removeTag steps from a within-bounds duplicate-
free selection stays within bounds and duplicate-free. -/
theorem foldl_applyTagOp_preserves (ops : List TagOp) :
    ∀ s : List String, s.length ≤ 25 → s.Nodup →
      (ops.foldl applyTagOp s).length ≤ 25 ∧ (ops.foldl applyTagOp s).Nodup := by
  induction ops with
  | nil => intro s h1 h2; exact ⟨h1, h2⟩
  | cons op rest ih =>
    intro s h1 h2
    have h := applyTagOp_preserves s op h1 h2
    exact ih _ h.1 h.2

/-- C7: every sequence of addTag / removeTag interactions from the empty
selection keeps at most 25 selected tags with no tag selected twice; addTag
appends exactly when the tag is new and the count is below 25 and is a
no-op otherwise, and removeTag removes every occurrence of the given tag
while keeping all other tags. -/
theorem tag_selection_invariant (ops : List TagOp) (s : List String) (t : String) :
    ((applyTagOps ops).length ≤ 25 ∧ (applyTagOps ops).Nodup) ∧
    (t ∉ s → s.length < 25 → addTag s t = s ++ [t]) ∧
    (t ∈ s ∨ 25 ≤ s.length → addTag s t = s) ∧
    (t ∉ removeTag s t) ∧
    (∀ x ∈ s, x ≠ t → x ∈ removeTag s t) := by
  refine ⟨foldl_applyTagOp_preserves ops [] (by simp) (by simp), ?_, ?_, ?_, ?_⟩
  · intro hmem hlt
    simp [addTag, hmem, hlt]
  · intro h
    rcases h with h | h
    · simp [addTag, h]
    · simp [addTag, show ¬s.length < 25 by omega]
  · simp [removeTag, List.mem_filter]
  · intro x hx hne
    simp [removeTag, List.mem_filter, hx, hne]

/-- C7 witness: a fresh tag is appended under the cap, and removing a
selected tag removes it. -/
theorem tag_selection_invariant_witness :
    addTag ["drama"] "noir" = ["drama", "noir"] ∧
    "noir" ∉ removeTag ["noir"] "noir" := by
  have h := tag_selection_invariant [] ["drama"] "noir"
  have h2 := tag_selection_invariant [TagOp.add "x"] ["noir"] "noir"
  exact ⟨h.2.1 (by simp) (by simp), h2.2.2.2.1⟩

/-- Probing the stored movie objects with a numeric id never matches:
`includes` compares a number against objects. -/
theorem likedIncludesId_false (likedMovies : List Movie) (id : Int) :
    likedIncludesId likedMovies id = false := by
  simp [likedIncludesId, sameValueZeroObjNum]

/-- C8: the liked-movies filter of the displayed shelf removes no entry —
for every liked state and every fetched list, the filter keeps all movies
and the displayed shelf is the same as with no liked movies at all, so
liking a movie never hides it from the recommendations display. -/
theorem liking_never_hides (movies likedMovies : List Movie) (inputValue : String)
    (selectedId : Option Int) :
    movies.filter (fun movie => !likedIncludesId likedMovies movie.id) = movies ∧
    filteredMovies movies likedMovies inputValue selectedId =
      filteredMovies movies [] inputValue selectedId := by
  have hfilter : ∀ liked : List Movie,
      movies.filter (fun movie => !likedIncludesId liked movie.id) = movies := by
    intro liked
    simp [likedIncludesId_false]
  refine ⟨hfilter likedMovies, ?_⟩
  unfold filteredMovies
  rw [hfilter likedMovies, hfilter []]

/-- A stored movie with a given id exists exactly when the id is among the
stored ids. -/
theorem any_id_eq_iff (s : List Movie) (i : Int) :
    s.any (fun m => m.id == i) = true ↔ i ∈ s.map (fun m => m.id) := by
  rw [List.any_eq_true]
  constructor
  · rintro ⟨m, hm, hbeq⟩
    exact List.mem_map.mpr ⟨m, hm, beq_iff_eq.mp hbeq⟩
  · intro h
    obtain ⟨m, hm, hid⟩ := List.mem_map.mp h
    exact ⟨m, hm, beq_iff_eq.mpr hid⟩

/-- The ids surviving the removal filter are the original ids other than the
removed one. -/
theorem ids_filter_ne (s : List Movie) (v : Int) (i : Int) :
    i ∈ (s.filter (fun m => m.id != v)).map (fun m => m.id) ↔
      i ∈ s.map (fun m => m.id) ∧ i ≠ v := by
  constructor
  · intro h
    obtain ⟨m, hm, hid⟩ := List.mem_map.mp h
    obtain ⟨hm1, hm2⟩ := List.mem_filter.mp hm
    refine ⟨List.mem_map.mpr ⟨m, hm1, hid⟩, ?_⟩
    rw [← hid]
    simpa using hm2
  · rintro ⟨him, hne⟩
    obtain ⟨m, hm, hid⟩ := List.mem_map.mp him
    refine List.mem_map.mpr ⟨m, List.mem_filter.mpr ⟨hm, ?_⟩, hid⟩
    simp [hid, hne]

/-- The removal filter preserves distinctness of stored ids. -/
theorem nodup_ids_filter (s : List Movie) (v : Int)
    (hinv : (s.map (fun m => m.id)).Nodup) :
    ((s.filter (fun m => m.id != v)).map (fun m => m.id)).Nodup :=
  hinv.sublist (List.Sublist.map (fun m => m.id) (List.filter_sublist s))

/-- C9: on liked states whose stored ids are distinct, handleLikeToggle
applied twice with the same movie restores exactly the original set of
identifiers, one application makes the movie's identifier present iff it
was absent, and distinctness of the stored identifiers is preserved. -/
theorem like_toggle_involutive (s : List Movie) (movie : Movie)
    (hinv : (s.map (fun m => m.id)).Nodup) :
    (∀ i : Int,
       i ∈ (handleLikeToggle (handleLikeToggle s movie) movie).map (fun m => m.id) ↔
       i ∈ s.map (fun m => m.id)) ∧
    (movie.id ∈ (handleLikeToggle s movie).map (fun m => m.id) ↔
       movie.id ∉ s.map (fun m => m.id)) ∧
    ((handleLikeToggle s movie).map (fun m => m.id)).Nodup := by
  by_cases hmem : movie.id ∈ s.map (fun m => m.id)
  · -- the movie's id is present: the first toggle filters it out
    have hany : s.any (fun m => m.id == movie.id) = true := (any_id_eq_iff s movie.id).mpr hmem
    have h1 : handleLikeToggle s movie = s.filter (fun m => m.id != movie.id) := by
      simp [handleLikeToggle, hany]
    have hanyf : (s.filter (fun m => m.id != movie.id)).any (fun m => m.id == movie.id)
        = false := by
      rw [← Bool.not_eq_true, any_id_eq_iff]
      intro h
      exact ((ids_filter_ne s movie.id movie.id).mp h).2 rfl
    have h2 : handleLikeToggle (s.filter (fun m => m.id != movie.id)) movie =
        s.filter (fun m => m.id != movie.id) ++ [movie] := by
      simp [handleLikeToggle, hanyf]
    refine ⟨?_, ?_, ?_⟩
    · intro i
      rw [h1, h2, List.map_append]
      simp only [List.mem_append, List.map_cons, List.map_nil, List.mem_singleton,
        ids_filter_ne]
      constructor
      · rintro (⟨him, hne⟩ | rfl)
        · exact him
        · exact hmem
      · intro him
        by_cases he : i = movie.id
        · right; exact he
        · left; exact ⟨him, he⟩
    · rw [h1]
      constructor
      · intro h
        exact absurd rfl ((ids_filter_ne s movie.id movie.id).mp h).2
      · intro h
        exact absurd hmem h
    · rw [h1]
      exact nodup_ids_filter s movie.id hinv
  · -- the movie's id is absent: the first toggle appends the movie
    have hany : s.any (fun m => m.id == movie.id) = false := by
      rw [← Bool.not_eq_true, any_id_eq_iff]
      exact hmem
    have h1 : handleLikeToggle s movie = s ++ [movie] := by
      simp [handleLikeToggle, hany]
    have hany2 : (s ++ [movie]).any (fun m => m.id == movie.id) = true := by
      rw [any_id_eq_iff, List.map_append]
      simp
    have hfs : s.filter (fun m => m.id != movie.id) = s := by
      rw [List.filter_eq_self]
      intro m hm
      have : m.id ≠ movie.id := by
        intro he
        exact hmem (List.mem_map.mpr ⟨m, hm, he⟩)
      simpa using this
    have h2 : handleLikeToggle (s ++ [movie]) movie = s := by
      rw [handleLikeToggle, if_pos hany2, List.filter_append, hfs]
      simp
    refine ⟨?_, ?_, ?_⟩
    · intro i
      rw [h1, h2]
    · rw [h1, List.map_append]
      simp [hmem]
    · rw [h1, List.map_append]
      simp only [List.map_cons, List.map_nil]
      rw [List.nodup_append]
      refine ⟨hinv, List.nodup_singleton _, ?_⟩
      intro a ha hb
      rw [List.mem_singleton] at hb
      rw [hb] at ha
      exact hmem ha

/-- C9 witness: toggling a movie into an empty liked state makes its id
present. -/
theorem like_toggle_involutive_witness :
    ((([] : List Movie).map (fun m => m.id)).Nodup) ∧
    ((7 : Int) ∈
      (handleLikeToggle []
        { id := 7, title := "Seven", year := "1995", runtime := "127 mins",
          genres := [], streaming := "NETFLIX" }).map (fun m => m.id)) :=
  ⟨by simp,
    (like_toggle_involutive []
      { id := 7, title := "Seven", year := "1995", runtime := "127 mins",
        genres := [], streaming := "NETFLIX" } (by simp)).2.1.mpr (by simp)⟩

end Lumiere
